import Mathlib

/-!
Verification of the hourglass time-provider crate.

Shallow embedding conventions:
- `chrono::DateTime<Utc>` instants and `chrono::Duration` values are modelled
  as unbounded integers (`Int`); chrono panics on arithmetic overflow rather
  than wrapping, so within the representable range the arithmetic is exact
  integer arithmetic.
- The virtual clock state guarded by the `parking_lot::RwLock` in
  `src/test.rs` is the record `TestState`; each lock-protected critical
  section of the Rust code becomes one pure state transformer.
- `usize` counters are modelled as `Nat`.
- The `Arc`-shared heap of virtual clocks is modelled by a store `World`
  mapping clock identifiers to states; providers and control handles hold
  identifiers, mirroring `Arc<TestTimeProvider>` references.
-/

namespace Hourglass

/-- The state guarded by the `RwLock` inside `TestTimeProvider`
(struct `TestState` in `src/test.rs`). -/
structure TestState where
  current_time : Int
  total_waited : Int
  wait_call_count : Nat
deriving Repr, DecidableEq

/-- `TestTimeProvider::new(start)`: initial virtual clock state. -/
def TestState.new (start : Int) : TestState :=
  { current_time := start, total_waited := 0, wait_call_count := 0 }

/-- `TestTimeProvider::now`: read `current_time` under the read lock. -/
def TestState.now (s : TestState) : Int :=
  s.current_time

/-- `TestTimeProvider::advance(duration)`: add `duration` to `current_time`
under the write lock. -/
def TestState.advance (s : TestState) (duration : Int) : TestState :=
  { s with current_time := s.current_time + duration }

/-- `TestTimeProvider::set(time)`: overwrite `current_time` under the write
lock. -/
def TestState.set (s : TestState) (time : Int) : TestState :=
  { s with current_time := time }

/-- `TestTimeProvider::reset_wait_tracking`: zero both wait statistics under
the write lock. -/
def TestState.reset_wait_tracking (s : TestState) : TestState :=
  { s with total_waited := 0, wait_call_count := 0 }

/-- The critical section of `TestTimeProvider::wait(duration)`: add
`duration` to `current_time` and to `total_waited`, increment
`wait_call_count`.  (The subsequent `yield_now().await` does not touch the
state.) -/
def TestState.wait (s : TestState) (duration : Int) : TestState :=
  { current_time := s.current_time + duration,
    total_waited := s.total_waited + duration,
    wait_call_count := s.wait_call_count + 1 }

/-- `TestTimeProvider::wait_until(deadline)`: read `now`, and if the deadline
is strictly in the future delegate to `wait(deadline - now)`. -/
def TestState.wait_until (s : TestState) (deadline : Int) : TestState :=
  if deadline > s.now then s.wait (deadline - s.now) else s

/-- Sequential application of `wait` calls with the given durations. -/
def applyWaits (s : TestState) (durations : List Int) : TestState :=
  durations.foldl TestState.wait s

/-- `chrono::Duration::to_std`: succeeds exactly on non-negative durations
(every non-negative chrono duration is representable as a
`std::time::Duration`). -/
def durationToStd (duration : Int) : Option Int :=
  if 0 ≤ duration then some duration else none

namespace SystemTimeProvider

/-- Effect model of `SystemTimeProvider::wait(duration)` in `src/system.rs`:
`some t` means the task sleeps for wall-clock interval `t`; `none` means the
call is a silent no-op (the `to_std` conversion failed). -/
def waitSleep (duration : Int) : Option Int :=
  durationToStd duration

/-- Effect model of `SystemTimeProvider::wait_until(deadline)` given the real
clock reading `realNow`: sleep only when the deadline is strictly in the
future, for `deadline - realNow`. -/
def waitUntilSleep (realNow deadline : Int) : Option Int :=
  if deadline > realNow then waitSleep (deadline - realNow) else none

end SystemTimeProvider

/-- `TimeSource` in `src/config.rs`. -/
inductive TimeSource where
  | System : TimeSource
  | Test : Int → TimeSource
  | TestNow : TimeSource
deriving Repr, DecidableEq

/-- Whether the selector names a virtual clock. -/
def TimeSource.isVirtual : TimeSource → Bool
  | TimeSource.System => false
  | TimeSource.Test _ => true
  | TimeSource.TestNow => true

/-- `TimeSource::from_env` in `src/config.rs`, as a function of the
`TIME_SOURCE` and `TIME_START` environment values (`none` = variable unset).
The RFC3339 parser is a parameter (`none` = parse failure).  The returned
Bool records whether the `eprintln!` diagnostic was emitted. -/
def TimeSource.from_env (parse_rfc3339 : String → Option Int)
    (time_source time_start : Option String) : TimeSource × Bool :=
  match time_source with
  | some "test" =>
    match time_start with
    | some start_str =>
      match parse_rfc3339 start_str with
      | some start_time => (TimeSource.Test start_time, false)
      | none => (TimeSource.TestNow, true)
    | none => (TimeSource.TestNow, false)
  | _ => (TimeSource.System, false)

/-- The store of allocated virtual clocks (the heap of
`Arc<RwLock<TestState>>` cells). -/
def World : Type := Nat → TestState

/-- Update the clock with identifier `id` in place. -/
def World.update (w : World) (id : Nat) (f : TestState → TestState) : World :=
  fun i => if i = id then f (w i) else w i

/-- The `inner: SharedTimeProvider` field of `SafeTimeProvider`: either the
system provider or an `Arc` reference to a virtual clock. -/
inductive InnerProvider where
  | system : InnerProvider
  | test : Nat → InnerProvider
deriving Repr, DecidableEq

/-- `SafeTimeProvider` in `src/safe.rs`: the contract-typed reference plus
the optional strongly-typed reference to the same virtual clock. -/
structure SafeTimeProvider where
  inner : InnerProvider
  test_provider : Option Nat
deriving Repr, DecidableEq

/-- `SafeTimeProvider::new(source)`.  `realNow` is the real clock reading used
by the `TestNow` arm; `fresh` is the identifier of the newly allocated clock
cell.  For a virtual selector both references point at the same cell. -/
def SafeTimeProvider.new (source : TimeSource) (realNow : Int) (fresh : Nat)
    (w : World) : SafeTimeProvider × World :=
  match source with
  | TimeSource.System =>
    ({ inner := InnerProvider.system, test_provider := none }, w)
  | TimeSource.Test start =>
    ({ inner := InnerProvider.test fresh, test_provider := some fresh },
      w.update fresh (fun _ => TestState.new start))
  | TimeSource.TestNow =>
    ({ inner := InnerProvider.test fresh, test_provider := some fresh },
      w.update fresh (fun _ => TestState.new realNow))

/-- `impl Clone for SafeTimeProvider`: clones both `Arc` references (the
identifiers), never the pointed-to state. -/
def SafeTimeProvider.clone (p : SafeTimeProvider) : SafeTimeProvider :=
  { inner := p.inner, test_provider := p.test_provider }

/-- `SafeTimeProvider::is_test_mode`, delegating to `TimeProvider::is_test`
of the inner provider (`false` for system, `true` for test). -/
def SafeTimeProvider.is_test_mode (p : SafeTimeProvider) : Bool :=
  match p.inner with
  | InnerProvider.system => false
  | InnerProvider.test _ => true

/-- `TimeControl` in `src/control.rs`: an `Arc` reference to a virtual
clock. -/
structure TimeControl where
  provider : Nat
deriving Repr, DecidableEq

/-- `SafeTimeProvider::test_control`: map the optional reference to a
control handle. -/
def SafeTimeProvider.test_control (p : SafeTimeProvider) : Option TimeControl :=
  p.test_provider.map TimeControl.mk

/-- `TimeControl::advance(duration)`: mutate the referenced clock. -/
def TimeControl.advance (c : TimeControl) (duration : Int) (w : World) : World :=
  w.update c.provider (fun s => s.advance duration)

/-- `TimeControl::set(time)`: mutate the referenced clock. -/
def TimeControl.setTime (c : TimeControl) (time : Int) (w : World) : World :=
  w.update c.provider (fun s => TestState.set s time)

/-- `TimeControl::reset_wait_tracking`. -/
def TimeControl.reset_wait_tracking (c : TimeControl) (w : World) : World :=
  w.update c.provider TestState.reset_wait_tracking

/-- `SafeTimeProvider::now`: the system provider reads the real clock
(`realNow`), a test provider reads its clock cell. -/
def SafeTimeProvider.nowW (p : SafeTimeProvider) (realNow : Int) (w : World) : Int :=
  match p.inner with
  | InnerProvider.system => realNow
  | InnerProvider.test id => (w id).now

/-- Effect of `SafeTimeProvider::wait` on the store of virtual clocks: the
system provider sleeps and touches no virtual clock; a test provider applies
the `wait` critical section to its cell. -/
def SafeTimeProvider.waitW (p : SafeTimeProvider) (duration : Int) (w : World) : World :=
  match p.inner with
  | InnerProvider.system => w
  | InnerProvider.test id => w.update id (fun s => s.wait duration)

/-- Effect of `SafeTimeProvider::wait_until` on the store: read `now`, then
delegate to `wait` when the deadline is strictly in the future. -/
def SafeTimeProvider.wait_untilW (p : SafeTimeProvider) (realNow deadline : Int)
    (w : World) : World :=
  if deadline > p.nowW realNow w then p.waitW (deadline - p.nowW realNow w) w else w

/-- One operation of the public `SafeTimeProvider` surface. -/
inductive PublicOp where
  | nowOp : PublicOp
  | waitOp : Int → PublicOp
  | waitUntilOp : Int → PublicOp
  | isTestModeOp : PublicOp
  | testControlOp : PublicOp
deriving Repr, DecidableEq

/-- Effect of one public operation on the store of virtual clocks.  `now`,
`is_test_mode` and `test_control` are reads; `wait` and `wait_until` have the
effects modelled above.  `realNow` is the real clock reading at the moment of
the call. -/
def PublicOp.apply (p : SafeTimeProvider) (realNow : Int) (op : PublicOp)
    (w : World) : World :=
  match op with
  | PublicOp.nowOp => w
  | PublicOp.waitOp d => p.waitW d w
  | PublicOp.waitUntilOp t => p.wait_untilW realNow t w
  | PublicOp.isTestModeOp => w
  | PublicOp.testControlOp => w

/-- Effect of a sequence of public operations, each tagged with the real
clock reading at its call. -/
def PublicOp.applyAll (p : SafeTimeProvider) (ops : List (Int × PublicOp))
    (w : World) : World :=
  ops.foldl (fun w op => PublicOp.apply p op.1 op.2 w) w

/-- One operation on a single virtual clock state (the operations of the
provider contract and the control handle that touch the state). -/
inductive ClockOp where
  | waitC : Int → ClockOp
  | waitUntilC : Int → ClockOp
  | advanceC : Int → ClockOp
  | setC : Int → ClockOp
  | resetC : ClockOp
deriving Repr, DecidableEq

/-- Apply one clock operation to the state. -/
def ClockOp.apply (op : ClockOp) (s : TestState) : TestState :=
  match op with
  | ClockOp.waitC d => s.wait d
  | ClockOp.waitUntilC t => s.wait_until t
  | ClockOp.advanceC d => s.advance d
  | ClockOp.setC t => TestState.set s t
  | ClockOp.resetC => s.reset_wait_tracking

/-- Apply a sequence of clock operations. -/
def applyOps (ops : List ClockOp) (s : TestState) : TestState :=
  ops.foldl (fun s op => op.apply s) s

/-- Whether a clock operation is a pure time-setting operation
(`advance` or `set`). -/
def ClockOp.isTimeSetting : ClockOp → Bool
  | ClockOp.advanceC _ => true
  | ClockOp.setC _ => true
  | _ => false

/-- Helper: the final instant after a sequence of waits is the start plus the
sum of the durations. -/
theorem applyWaits_now (l : List Int) : ∀ s : TestState,
    (applyWaits s l).now = s.now + l.sum := by
  induction l with
  | nil => intro s; simp [applyWaits]
  | cons d tl ih =>
    intro s
    simp only [applyWaits, List.foldl_cons, List.sum_cons]
    have h := ih (s.wait d)
    simp only [applyWaits] at h
    rw [h]
    simp [TestState.wait, TestState.now]
    ring

/-- C1: On the virtual-clock provider, `wait(d)` adds `d` to `current_time`,
adds `d` to `total_waited`, and increments `wait_call_count` by exactly one,
for every duration `d` including zero and negative; hence `now()` after the
call equals `now()` before plus `d`. -/
theorem wait_is_additive (s : TestState) (d : Int) :
    (s.wait d).current_time = s.current_time + d ∧
    (s.wait d).total_waited = s.total_waited + d ∧
    (s.wait d).wait_call_count = s.wait_call_count + 1 ∧
    (s.wait d).now = s.now + d :=
  ⟨rfl, rfl, rfl, rfl⟩

/-- C2: Applying `wait` calls with durations d1…dn in any order leaves the
final `now()` equal to the start plus the sum of all the durations: any
permutation of the per-call updates yields the same final instant,
`start + Σ dᵢ`. -/
theorem applyWaits_perm_invariant (s : TestState) (l l2 : List Int)
    (h : l.Perm l2) :
    (applyWaits s l).now = s.now + l.sum ∧
    (applyWaits s l2).now = s.now + l.sum := by
  refine ⟨applyWaits_now l s, ?_⟩
  rw [applyWaits_now l2 s, h.sum_eq]

/-- Witness for C2 at a concrete permutation. -/
theorem applyWaits_perm_invariant_witness :
    (applyWaits (TestState.new 10) [1, 2, 3]).now = 10 + 6 ∧
    (applyWaits (TestState.new 10) [3, 1, 2]).now = 10 + 6 :=
  applyWaits_perm_invariant (TestState.new 10) [1, 2, 3] [3, 1, 2] (by decide)

/-- C3: `wait_until(deadline)` with `deadline <= now()` returns immediately
with no side effects on either provider; with `deadline > now()` it delegates
to `wait(deadline - now())`, so on a virtual clock it advances `now()` to the
deadline and increments `wait_call_count` by one, and on the real clock it
sleeps for `deadline - now()`. -/
theorem wait_until_semantics (s : TestState) (deadline realNow : Int) :
    (deadline ≤ s.now → s.wait_until deadline = s) ∧
    (deadline > s.now →
      s.wait_until deadline = s.wait (deadline - s.now) ∧
      (s.wait_until deadline).now = deadline ∧
      (s.wait_until deadline).wait_call_count = s.wait_call_count + 1) ∧
    (deadline ≤ realNow →
      SystemTimeProvider.waitUntilSleep realNow deadline = none) ∧
    (deadline > realNow →
      SystemTimeProvider.waitUntilSleep realNow deadline =
        SystemTimeProvider.waitSleep (deadline - realNow)) := by
  refine ⟨?_, ?_, ?_, ?_⟩
  · intro h
    simp [TestState.wait_until, not_lt.mpr h]
  · intro h
    have e : s.wait_until deadline = s.wait (deadline - s.now) := by
      simp [TestState.wait_until, h]
    refine ⟨e, ?_, ?_⟩
    · rw [e]; simp [TestState.wait, TestState.now]
    · rw [e]; rfl
  · intro h
    simp [SystemTimeProvider.waitUntilSleep, not_lt.mpr h]
  · intro h
    simp [SystemTimeProvider.waitUntilSleep, h]

/-- Witness for C3 at concrete deadlines on both sides of `now()`. -/
theorem wait_until_semantics_witness :
    (TestState.new 10).wait_until 7 = TestState.new 10 ∧
    ((TestState.new 10).wait_until 15).now = 15 ∧
    SystemTimeProvider.waitUntilSleep 10 7 = none ∧
    SystemTimeProvider.waitUntilSleep 10 15 =
      SystemTimeProvider.waitSleep 5 :=
  ⟨(wait_until_semantics (TestState.new 10) 7 10).1 (by decide),
   ((wait_until_semantics (TestState.new 10) 15 10).2.1 (by decide)).2.1,
   (wait_until_semantics (TestState.new 10) 7 10).2.2.1 (by decide),
   (wait_until_semantics (TestState.new 10) 15 10).2.2.2 (by decide)⟩

/-- C5: `advance` and `set` mutate only `current_time`, leaving
`total_waited` and `wait_call_count` unchanged; `reset_wait_tracking` zeroes
both statistics and leaves `current_time` unchanged — for every prior state
and every argument. -/
theorem advance_set_reset_frame (s : TestState) (d t : Int) :
    (s.advance d).current_time = s.current_time + d ∧
    (s.advance d).total_waited = s.total_waited ∧
    (s.advance d).wait_call_count = s.wait_call_count ∧
    (TestState.set s t).current_time = t ∧
    (TestState.set s t).total_waited = s.total_waited ∧
    (TestState.set s t).wait_call_count = s.wait_call_count ∧
    s.reset_wait_tracking.total_waited = 0 ∧
    s.reset_wait_tracking.wait_call_count = 0 ∧
    s.reset_wait_tracking.current_time = s.current_time :=
  ⟨rfl, rfl, rfl, rfl, rfl, rfl, rfl, rfl, rfl⟩

/-- C4: `test_control()` returns a handle and `is_test_mode()` is `true` if
and only if the source selector is virtual (`Test` or `TestNow`); for the
`System` selector `is_test_mode()` is `false` and `test_control()` is
`none`. -/
theorem test_control_iff_virtual (source : TimeSource) (realNow : Int)
    (fresh : Nat) (w : World) :
    ((SafeTimeProvider.new source realNow fresh w).1.test_control.isSome ↔
      source.isVirtual = true) ∧
    (SafeTimeProvider.new source realNow fresh w).1.is_test_mode
      = source.isVirtual ∧
    (source = TimeSource.System →
      (SafeTimeProvider.new source realNow fresh w).1.test_control = none) := by
  cases source <;>
    simp [SafeTimeProvider.new, SafeTimeProvider.test_control,
      SafeTimeProvider.is_test_mode, TimeSource.isVirtual, Option.map]

/-- Witness for C4 at the `System` and `Test` selectors. -/
theorem test_control_iff_virtual_witness :
    (SafeTimeProvider.new TimeSource.System 0 0
      (fun _ => TestState.new 0)).1.test_control = none ∧
    ((SafeTimeProvider.new (TimeSource.Test 5) 0 0
      (fun _ => TestState.new 0)).1.test_control.isSome ↔
      (TimeSource.Test 5).isVirtual = true) :=
  ⟨(test_control_iff_virtual TimeSource.System 0 0
      (fun _ => TestState.new 0)).2.2 rfl,
   (test_control_iff_virtual (TimeSource.Test 5) 0 0
      (fun _ => TestState.new 0)).1⟩

/-- Helper: one clock operation other than reset never decreases
`wait_call_count`. -/
theorem ClockOp.apply_count_mono (op : ClockOp) (s : TestState)
    (h : op ≠ ClockOp.resetC) :
    s.wait_call_count ≤ (op.apply s).wait_call_count := by
  cases op with
  | waitC d => simp [ClockOp.apply, TestState.wait]
  | waitUntilC t =>
    simp only [ClockOp.apply, TestState.wait_until]
    split
    · simp [TestState.wait]
    · exact le_refl _
  | advanceC d => exact le_refl _
  | setC t => exact le_refl _
  | resetC => exact absurd rfl h

/-- Helper: one clock operation other than reset, whose wait duration (if it
is a wait) is non-negative, never decreases `total_waited`. -/
theorem ClockOp.apply_waited_mono (op : ClockOp) (s : TestState)
    (h : op ≠ ClockOp.resetC)
    (hd : ∀ d : Int, op = ClockOp.waitC d → 0 ≤ d) :
    s.total_waited ≤ (op.apply s).total_waited := by
  cases op with
  | waitC d =>
    have h0 : 0 ≤ d := hd d rfl
    simp only [ClockOp.apply, TestState.wait]
    omega
  | waitUntilC t =>
    simp only [ClockOp.apply, TestState.wait_until]
    split
    · simp only [TestState.wait, TestState.now]
      rename_i hgt
      simp only [TestState.now] at hgt
      omega
    · exact le_refl _
  | advanceC d => exact le_refl _
  | setC t => exact le_refl _
  | resetC => exact absurd rfl h

/-- Helper: a time-setting operation (`advance` or `set`) leaves both wait
statistics unchanged. -/
theorem ClockOp.apply_timeSetting_frame (op : ClockOp) (s : TestState)
    (h : op.isTimeSetting = true) :
    (op.apply s).total_waited = s.total_waited ∧
    (op.apply s).wait_call_count = s.wait_call_count := by
  cases op with
  | advanceC d => exact ⟨rfl, rfl⟩
  | setC t => exact ⟨rfl, rfl⟩
  | waitC d => simp [ClockOp.isTimeSetting] at h
  | waitUntilC t => simp [ClockOp.isTimeSetting] at h
  | resetC => simp [ClockOp.isTimeSetting] at h

/-- C6 counterexample: a `wait` with negative duration decreases
`total_waited` although no `reset_wait_tracking` occurs, refuting "never
decrease except via an explicit reset" as stated. -/
theorem stats_decrease_counterexample :
    ClockOp.resetC ∉ [ClockOp.waitC (-1)] ∧
    (applyOps [ClockOp.waitC (-1)] (TestState.new 0)).total_waited <
      (TestState.new 0).total_waited := by
  constructor
  · decide
  · decide

/-- C6 amended: over every sequence of clock operations, the wait statistics
are mutated only by waits and resets (a sequence of `advance`/`set`
operations leaves them unchanged); without a reset, `wait_call_count` never
decreases, and `total_waited` never decreases provided every wait duration in
the sequence is non-negative. -/
theorem stats_monotonic (ops : List ClockOp) : ∀ s : TestState,
    ((∀ op ∈ ops, op.isTimeSetting = true) →
      (applyOps ops s).total_waited = s.total_waited ∧
      (applyOps ops s).wait_call_count = s.wait_call_count) ∧
    (ClockOp.resetC ∉ ops →
      s.wait_call_count ≤ (applyOps ops s).wait_call_count) ∧
    (ClockOp.resetC ∉ ops → (∀ d : Int, ClockOp.waitC d ∈ ops → 0 ≤ d) →
      s.total_waited ≤ (applyOps ops s).total_waited) := by
  induction ops with
  | nil =>
    intro s
    exact ⟨fun _ => ⟨rfl, rfl⟩, fun _ => le_refl _, fun _ _ => le_refl _⟩
  | cons op tl ih =>
    intro s
    have step : applyOps (op :: tl) s = applyOps tl (op.apply s) := rfl
    refine ⟨?_, ?_, ?_⟩
    · intro hall
      have hop := ClockOp.apply_timeSetting_frame op s (hall op (by simp))
      have htl := (ih (op.apply s)).1 (fun o ho => hall o (by simp [ho]))
      rw [step]
      exact ⟨htl.1.trans hop.1, htl.2.trans hop.2⟩
    · intro hmem
      have hop : op ≠ ClockOp.resetC := fun e => hmem (by simp [e])
      have h1 := ClockOp.apply_count_mono op s hop
      have h2 := (ih (op.apply s)).2.1 (fun e => hmem (by simp [e]))
      rw [step]
      exact h1.trans h2
    · intro hmem hpos
      have hop : op ≠ ClockOp.resetC := fun e => hmem (by simp [e])
      have h1 := ClockOp.apply_waited_mono op s hop
        (fun d e => hpos d (by simp [e]))
      have h2 := (ih (op.apply s)).2.2 (fun e => hmem (by simp [e]))
        (fun d hd => hpos d (by simp [hd]))
      rw [step]
      exact h1.trans h2

/-- Witness for C6 amended on a concrete reset-free sequence with
non-negative wait durations. -/
theorem stats_monotonic_witness :
    (∀ op ∈ [ClockOp.advanceC 5, ClockOp.setC 2],
      op.isTimeSetting = true) ∧
    (applyOps [ClockOp.advanceC 5, ClockOp.setC 2]
      (TestState.new 0)).total_waited = (TestState.new 0).total_waited ∧
    (TestState.new 0).wait_call_count ≤
      (applyOps [ClockOp.advanceC 5, ClockOp.setC 2]
        (TestState.new 0)).wait_call_count :=
  ⟨by decide,
   ((stats_monotonic [ClockOp.advanceC 5, ClockOp.setC 2]
      (TestState.new 0)).1 (by decide)).1,
   (stats_monotonic [ClockOp.advanceC 5, ClockOp.setC 2]
      (TestState.new 0)).2.1 (by decide)⟩

/-- C7: cloning a virtual-clock-backed `SafeTimeProvider` duplicates the
references, not the state: the clone reads the same clock as the original in
every store, and advancing through a control handle derived from the clone
is observed by `now()` on the original. -/
theorem clone_shares_clock (source : TimeSource) (realNow rn2 d : Int)
    (fresh : Nat) (w : World) (hv : source.isVirtual = true) :
    ∃ c : TimeControl,
      ((SafeTimeProvider.new source realNow fresh w).1.clone).test_control
        = some c ∧
      (∀ w2 : World,
        ((SafeTimeProvider.new source realNow fresh w).1.clone).nowW rn2 w2 =
          (SafeTimeProvider.new source realNow fresh w).1.nowW rn2 w2) ∧
      (SafeTimeProvider.new source realNow fresh w).1.nowW rn2
          (c.advance d (SafeTimeProvider.new source realNow fresh w).2) =
        (SafeTimeProvider.new source realNow fresh w).1.nowW rn2
          (SafeTimeProvider.new source realNow fresh w).2 + d := by
  cases source with
  | System => simp [TimeSource.isVirtual] at hv
  | Test start =>
    refine ⟨TimeControl.mk fresh, rfl, fun w2 => rfl, ?_⟩
    simp [SafeTimeProvider.new, SafeTimeProvider.nowW, TimeControl.advance,
      World.update, TestState.advance, TestState.new, TestState.now]
  | TestNow =>
    refine ⟨TimeControl.mk fresh, rfl, fun w2 => rfl, ?_⟩
    simp [SafeTimeProvider.new, SafeTimeProvider.nowW, TimeControl.advance,
      World.update, TestState.advance, TestState.new, TestState.now]

/-- Witness for C7 at a concrete virtual selector and advance amount. -/
theorem clone_shares_clock_witness :
    ∃ c : TimeControl,
      ((SafeTimeProvider.new (TimeSource.Test 3) 0 0
        (fun _ => TestState.new 0)).1.clone).test_control = some c ∧
      (∀ w2 : World,
        ((SafeTimeProvider.new (TimeSource.Test 3) 0 0
          (fun _ => TestState.new 0)).1.clone).nowW 7 w2 =
        (SafeTimeProvider.new (TimeSource.Test 3) 0 0
          (fun _ => TestState.new 0)).1.nowW 7 w2) ∧
      (SafeTimeProvider.new (TimeSource.Test 3) 0 0
          (fun _ => TestState.new 0)).1.nowW 7
        (c.advance 5 (SafeTimeProvider.new (TimeSource.Test 3) 0 0
          (fun _ => TestState.new 0)).2) =
      (SafeTimeProvider.new (TimeSource.Test 3) 0 0
          (fun _ => TestState.new 0)).1.nowW 7
        (SafeTimeProvider.new (TimeSource.Test 3) 0 0
          (fun _ => TestState.new 0)).2 + 5 :=
  clone_shares_clock (TimeSource.Test 3) 0 7 5 0
    (fun _ => TestState.new 0) rfl

/-- C8: on the real-clock provider, `wait(duration)` with a negative
(unrepresentable) duration is a silent no-op — no sleep is performed — and a
non-negative duration sleeps for exactly that interval. -/
theorem system_wait_negative_noop (d : Int) :
    (d < 0 → SystemTimeProvider.waitSleep d = none) ∧
    (0 ≤ d → SystemTimeProvider.waitSleep d = some d) := by
  constructor
  · intro h
    simp [SystemTimeProvider.waitSleep, durationToStd, not_le.mpr h]
  · intro h
    simp [SystemTimeProvider.waitSleep, durationToStd, h]

/-- Witness for C8 at a negative and a non-negative duration. -/
theorem system_wait_negative_noop_witness :
    SystemTimeProvider.waitSleep (-1) = none ∧
    SystemTimeProvider.waitSleep 5 = some 5 :=
  ⟨(system_wait_negative_noop (-1)).1 (by decide),
   (system_wait_negative_noop 5).2 (by decide)⟩

/-- C9 counterexample: with `TIME_SOURCE = "test"` and `TIME_START` unset,
`from_env` falls back to `TestNow` but emits no diagnostic (the returned flag
is `false`), refuting the claim that a missing `TIME_START` produces a
diagnostic on the error stream. -/
theorem from_env_missing_silent :
    TimeSource.from_env (fun _ => none) (some "test") none =
      (TimeSource.TestNow, false) := rfl

/-- C9 amended: with `TIME_SOURCE = "test"` and `TIME_START` set, a valid
RFC3339 value yields `Test(parsed)` with no diagnostic and a malformed value
falls back to `TestNow` with a diagnostic; with `TIME_START` unset it falls
back to `TestNow` silently; any other `TIME_SOURCE` value (set or unset)
yields `System`.  Construction always succeeds. -/
theorem from_env_semantics (parse : String → Option Int) (s : String) :
    TimeSource.from_env parse (some "test") (some s) =
      (match parse s with
        | some t => (TimeSource.Test t, false)
        | none => (TimeSource.TestNow, true)) ∧
    TimeSource.from_env parse (some "test") none =
      (TimeSource.TestNow, false) ∧
    (∀ tsrc tstart : Option String, tsrc ≠ some "test" →
      TimeSource.from_env parse tsrc tstart = (TimeSource.System, false)) := by
  refine ⟨?_, rfl, ?_⟩
  · cases hps : parse s with
    | none => simp [TimeSource.from_env, hps]
    | some t => simp [TimeSource.from_env, hps]
  · intro tsrc tstart h
    cases tsrc with
    | none => rfl
    | some str =>
      have hs : str ≠ "test" := fun e => h (by rw [e])
      simp [TimeSource.from_env, hs]

/-- Witness for C9 amended at concrete parser outcomes and selector
values. -/
theorem from_env_semantics_witness :
    TimeSource.from_env (fun _ => some 7) (some "test") (some "x") =
      (TimeSource.Test 7, false) ∧
    TimeSource.from_env (fun _ => none) (some "test") (some "x") =
      (TimeSource.TestNow, true) ∧
    TimeSource.from_env (fun _ => some 7) (some "system") (some "x") =
      (TimeSource.System, false) :=
  ⟨(from_env_semantics (fun _ => some 7) "x").1,
   (from_env_semantics (fun _ => none) "x").1,
   (from_env_semantics (fun _ => some 7) "x").2.2 (some "system") (some "x")
     (by simp)⟩

/-- Helper: every public operation on a system-backed provider leaves the
store of virtual clocks unchanged. -/
theorem PublicOp.apply_system (p : SafeTimeProvider) (realNow : Int)
    (op : PublicOp) (w : World) (h : p.inner = InnerProvider.system) :
    PublicOp.apply p realNow op w = w := by
  cases op with
  | nowOp => rfl
  | waitOp d => simp [PublicOp.apply, SafeTimeProvider.waitW, h]
  | waitUntilOp t =>
    simp only [PublicOp.apply, SafeTimeProvider.wait_untilW,
      SafeTimeProvider.waitW, h]
    split <;> rfl
  | isTestModeOp => rfl
  | testControlOp => rfl

/-- C10: for a `SafeTimeProvider` built from the `System` selector, no
sequence of public-surface operations (`now`, `wait`, `wait_until`,
`is_test_mode`, `test_control`) mutates any virtual clock, `is_test_mode` is
`false`, and `test_control` — the sole route to `advance`/`set` — returns
`none`, so no control handle is ever reachable. -/
theorem system_provider_time_immutable (realNow : Int) (fresh : Nat)
    (w w0 : World) (ops : List (Int × PublicOp)) :
    (SafeTimeProvider.new TimeSource.System realNow fresh w).1.test_control
      = none ∧
    (SafeTimeProvider.new TimeSource.System realNow fresh w).1.is_test_mode
      = false ∧
    PublicOp.applyAll
      (SafeTimeProvider.new TimeSource.System realNow fresh w).1 ops w0
      = w0 := by
  refine ⟨rfl, rfl, ?_⟩
  induction ops generalizing w0 with
  | nil => rfl
  | cons op tl ih =>
    have step : PublicOp.applyAll
        (SafeTimeProvider.new TimeSource.System realNow fresh w).1
        (op :: tl) w0 =
      PublicOp.applyAll
        (SafeTimeProvider.new TimeSource.System realNow fresh w).1 tl
        (PublicOp.apply
          (SafeTimeProvider.new TimeSource.System realNow fresh w).1
          op.1 op.2 w0) := rfl
    rw [step, PublicOp.apply_system _ _ _ _ rfl]
    exact ih w0

end Hourglass
